import Mathlib

/-!
Verification of the warehouse-system persistence layer.

The Rust sources are shallowly embedded: SQL-backed repository methods
(`src/backend/warehouse-db/src/repositories/warehouses.rs`) become pure
functions over an explicit table state (`List Warehouse`), the pure helpers
(`src/backend/warehouse-db/src/utils.rs`,
`src/backend/warehouse-models/src/lib.rs`) become Lean functions on `Int`
(Rust `i64`/`i32` values; Rust division truncates toward zero, so it is
modelled by `Int.tdiv`), and the axum handlers
(`src/backend/warehouse-api/src/main.rs`) become functions returning
`Except AppError`.  Timestamps (`DateTime<Utc>`) are abstract instants
modelled as `Int`.
-/

/-- Row of `warehouse.warehouses`, mirroring `Warehouse` in
`warehouse-models/src/lib.rs` (lines 17-38): nullable columns are
`Option`, timestamps are abstract `Int` instants. -/
structure Warehouse where
  warehouse_id : Int
  warehouse_code : String
  warehouse_name : String
  warehouse_type : Option String
  address : Option String
  city : Option String
  state : Option String
  postal_code : Option String
  country : Option String
  phone : Option String
  email : Option String
  manager_user_id : Option Int
  timezone : Option String
  is_active : Bool
  created_at : Option Int
  updated_at : Option Int
  created_by : Option Int
  updated_by : Option Int
deriving DecidableEq

/-- Creation payload `CreateWarehouse` (`warehouse-models/src/lib.rs` lines
40-58). -/
structure CreateWarehouse where
  warehouse_code : String
  warehouse_name : String
  warehouse_type : Option String
  address : Option String
  city : Option String
  state : Option String
  postal_code : Option String
  country : Option String
  email : Option String
  phone : Option String
  manager_user_id : Option Int
  timezone : Option String
deriving DecidableEq

/-- Update payload `UpdateWarehouse` (`warehouse-models/src/lib.rs` lines
60-76).  Note: it has no `warehouse_code` field. -/
structure UpdateWarehouse where
  warehouse_name : Option String
  warehouse_type : Option String
  address : Option String
  city : Option String
  state : Option String
  postal_code : Option String
  country : Option String
  email : Option String
  phone : Option String
  manager_user_id : Option Int
  timezone : Option String
deriving DecidableEq

/-- Query parameters `PaginationQuery` (`warehouse-models/src/lib.rs` lines
117-124). -/
structure PaginationQuery where
  page : Option Int
  limit : Option Int
  search : Option String
  sort_by : Option String
  sort_order : Option String
deriving DecidableEq

/-- `PaginationMeta` (`warehouse-models/src/lib.rs` lines 153-161). -/
structure PaginationMeta where
  total : Int
  page : Int
  limit : Int
  total_pages : Int
  has_next : Bool
  has_prev : Bool
deriving DecidableEq

/-- `PaginationMeta::new` (`warehouse-models/src/lib.rs` lines 163-175):
`total_pages = if limit > 0 { (total + limit - 1) / limit } else { 0 }`
with Rust `i64` division (truncation toward zero, `Int.tdiv`);
`has_next = page < total_pages`, `has_prev = page > 1`. -/
def PaginationMeta.new (total page limit : Int) : PaginationMeta :=
  let total_pages : Int := if 0 < limit then Int.tdiv (total + limit - 1) limit else 0
  { total := total
    page := page
    limit := limit
    total_pages := total_pages
    has_next := decide (page < total_pages)
    has_prev := decide (1 < page) }

/-- `PaginatedResponse` (`warehouse-models/src/lib.rs` lines 138-151). -/
structure PaginatedResponse (T : Type) where
  data : List T
  pagination : PaginationMeta
deriving DecidableEq

/-- `PaginatedResponse::new` (`warehouse-models/src/lib.rs` lines 144-151). -/
def PaginatedResponse.new {T : Type} (data : List T) (total page limit : Int) :
    PaginatedResponse T :=
  { data := data, pagination := PaginationMeta.new total page limit }

/-- `calculate_offset` (`warehouse-db/src/utils.rs` lines 51-53):
`(page.max(1) - 1) * limit.max(1)`. -/
def calculate_offset (page limit : Int) : Int :=
  (max page 1 - 1) * max limit 1

/-- `calculate_total_pages` (`warehouse-db/src/utils.rs` lines 56-62):
`if limit <= 0 { 0 } else { (total + limit - 1) / limit }` with Rust
truncating division. -/
def calculate_total_pages (total limit : Int) : Int :=
  if limit ≤ 0 then 0 else Int.tdiv (total + limit - 1) limit

/-- `validate_pagination` (`warehouse-db/src/utils.rs` lines 65-69):
`page = query.page.unwrap_or(1).max(1)`,
`limit = query.limit.unwrap_or(20).max(1).min(100)`. -/
def validate_pagination (q : PaginationQuery) : Int × Int :=
  (max (q.page.getD 1) 1, min (max (q.limit.getD 20) 1) 100)

/-- `build_sort_clause` (`warehouse-db/src/utils.rs` lines 6-25). -/
def build_sort_clause (sort_by sort_order : Option String)
    (default_sort : String) : String :=
  let sort_column :=
    match sort_by with
    | some "name" => "name"
    | some "code" => "code"
    | some "created_at" => "created_at"
    | some "updated_at" => "updated_at"
    | _ => default_sort
  let order :=
    match sort_order with
    | some "DESC" => "DESC"
    | some "desc" => "DESC"
    | _ => "ASC"
  "ORDER BY " ++ sort_column ++ " " ++ order

/-- `build_search_condition` (`warehouse-db/src/utils.rs` lines 28-48):
returns the SQL WHERE fragment and one pattern parameter per field. -/
def build_search_condition (search : Option String) (fields : List String) :
    String × List String :=
  match search with
  | some s =>
    if s.trim = "" then ("TRUE", [])
    else
      let search_term := "%" ++ s.trim ++ "%"
      let conditions := (fields.enum.map
        (fun fi => fi.2 ++ " ILIKE $" ++ toString (fi.1 + 1)))
      ("(" ++ String.intercalate " OR " conditions ++ ")",
        List.replicate fields.length search_term)
  | none => ("TRUE", [])

/-- ASCII lower-casing of a character, used to express the case-insensitive
matching performed by SQL `ILIKE`. -/
def asciiLower (c : Char) : Char :=
  if 'A' ≤ c ∧ c ≤ 'Z' then Char.ofNat (c.toNat + 32) else c

/-- Whether the first character list occurs at the head of the second. -/
def leadsWith : List Char → List Char → Bool
  | [], _ => true
  | _ :: _, [] => false
  | a :: as, b :: bs => a == b && leadsWith as bs

/-- Whether the first character list occurs contiguously inside the second. -/
def containsSub : List Char → List Char → Bool
  | n, [] => n.isEmpty
  | n, h :: t => leadsWith n (h :: t) || containsSub n t

/-- Case-insensitive substring test between strings (the semantics of SQL
`needle ILIKE pattern` for a `%needle%` pattern, restricted to ASCII case
folding). -/
def ilikeSub (needle hay : String) : Bool :=
  containsSub (needle.data.map asciiLower) (hay.data.map asciiLower)

/-- Modelled from the spec: the spec requires `list` to apply `search` "as a
case-insensitive substring match across a fixed, entity-specific set of text
fields"; no SQL under `src/` implements this for warehouses, so the
predicate is written from the spec words over the warehouse text fields. -/
def matchesSearch (s : String) (w : Warehouse) : Bool :=
  ilikeSub s w.warehouse_code || ilikeSub s w.warehouse_name ||
  ilikeSub s (w.warehouse_type.getD "") || ilikeSub s (w.address.getD "") ||
  ilikeSub s (w.city.getD "") || ilikeSub s (w.state.getD "") ||
  ilikeSub s (w.postal_code.getD "") || ilikeSub s (w.country.getD "") ||
  ilikeSub s (w.phone.getD "") || ilikeSub s (w.email.getD "") ||
  ilikeSub s (w.timezone.getD "")

deriving instance DecidableEq for Except

/-- Storage-level error relevant to this layer: Postgres rejecting an insert
through the unique index on active warehouse codes. -/
inductive SqlxError
  | uniqueViolation
deriving DecidableEq

/-- `AppError` (`warehouse-core/src/error.rs` lines 15-43).  `internal`
carries the storage error wrapped through `anyhow::Error` (the repository
methods return `anyhow::Result`, so their storage errors reach the handlers
as `AppError::Internal`, never as `AppError::Database`). -/
inductive AppError
  | database (e : SqlxError)
  | validation (msg : String)
  | notFound (resource : String)
  | alreadyExists (resource : String)
  | unauthorized
  | forbidden (reason : String)
  | config (msg : String)
  | externalService (service msg : String)
  | internal (e : SqlxError)
deriving DecidableEq

/-- The stable machine-readable error code chosen by
`IntoResponse for AppError` (`warehouse-core/src/error.rs` lines 73-119). -/
def AppError.code : AppError → String
  | .database _ => "DATABASE_ERROR"
  | .validation _ => "VALIDATION_ERROR"
  | .notFound _ => "NOT_FOUND"
  | .alreadyExists _ => "ALREADY_EXISTS"
  | .unauthorized => "UNAUTHORIZED"
  | .forbidden _ => "FORBIDDEN"
  | .config _ => "CONFIG_ERROR"
  | .externalService _ _ => "EXTERNAL_SERVICE_ERROR"
  | .internal _ => "INTERNAL_ERROR"

namespace WarehouseRepository

/-- The `is_active = true` filter used by every read query. -/
def activeRow (r : Warehouse) : Bool :=
  r.is_active

/-- The `ORDER BY warehouse_name` relation used by `list`. -/
def byName (a b : Warehouse) : Prop :=
  a.warehouse_name ≤ b.warehouse_name

instance : DecidableRel byName := fun a b =>
  inferInstanceAs (Decidable (a.warehouse_name ≤ b.warehouse_name))

instance : IsTotal Warehouse byName :=
  ⟨fun a b => le_total a.warehouse_name b.warehouse_name⟩

instance : IsTrans Warehouse byName :=
  ⟨fun _ _ _ h h2 => le_trans h h2⟩

/-- The row stored by the `INSERT` in `WarehouseRepository::create`
(`repositories/warehouses.rs` lines 19-73): `country` and `timezone` are
replaced by `unwrap_or_else` defaults, `created_by` is the literal `1i32`.
Modelled from the spec: the `is_active`, timestamp and `updated_by` column
defaults come from the schema migrations, which are not under `src/`; the
spec says created records are active with server-assigned timestamps. -/
def newRow (nid now : Int) (p : CreateWarehouse) : Warehouse :=
  { warehouse_id := nid
    warehouse_code := p.warehouse_code
    warehouse_name := p.warehouse_name
    warehouse_type := p.warehouse_type
    address := p.address
    city := p.city
    state := p.state
    postal_code := p.postal_code
    country := some (p.country.getD "Indonesia")
    phone := p.phone
    email := p.email
    manager_user_id := p.manager_user_id
    timezone := some (p.timezone.getD "Asia/Jakarta")
    is_active := true
    created_at := some now
    updated_at := some now
    created_by := some 1
    updated_by := none }

/-- `WarehouseRepository::create` (`repositories/warehouses.rs` lines
19-73).  Modelled from the spec: the unique index enforcing the §3
invariant (code unique among active rows) lives in the migrations, which
are not under `src/`; the insert fails with a uniqueness violation exactly
when an active row already holds the code. -/
def create (db : List Warehouse) (nid now : Int) (p : CreateWarehouse) :
    Except SqlxError (List Warehouse × Warehouse) :=
  if db.any (fun r => r.is_active && r.warehouse_code == p.warehouse_code) then
    .error .uniqueViolation
  else
    let w := newRow nid now p
    .ok (db ++ [w], w)

/-- `WarehouseRepository::get_by_id` (`repositories/warehouses.rs` lines
76-110): `WHERE warehouse_id = $1 AND is_active = true`. -/
def get_by_id (db : List Warehouse) (id : Int) : Option Warehouse :=
  db.find? (fun r => r.warehouse_id == id && r.is_active)

/-- `WarehouseRepository::get_by_code` (`repositories/warehouses.rs` lines
113-147): `WHERE warehouse_code = $1 AND is_active = true`. -/
def get_by_code (db : List Warehouse) (c : String) : Option Warehouse :=
  db.find? (fun r => r.warehouse_code == c && r.is_active)

/-- `WarehouseRepository::list` (`repositories/warehouses.rs` lines
150-198): counts active rows, then selects active rows
`ORDER BY warehouse_name LIMIT $1 OFFSET $2`.  The query text uses neither
`search` nor `sort_by` nor `sort_order`. -/
def list (db : List Warehouse) (q : PaginationQuery) :
    PaginatedResponse Warehouse :=
  let pl := validate_pagination q
  let offset := calculate_offset pl.1 pl.2
  let total : Int := ((db.filter activeRow).length : Int)
  let rows := (((db.filter activeRow).insertionSort byName).drop
    offset.toNat).take pl.2.toNat
  PaginatedResponse.new rows total pl.1 pl.2

/-- The row produced by the `UPDATE ... SET ... COALESCE` statement of
`WarehouseRepository::update` (`repositories/warehouses.rs` lines 201-230):
`COALESCE($n, column)` keeps the stored value when the parameter is null;
only the eight listed columns are written, plus `updated_at = NOW()` and
`updated_by = $10` (the literal `Some(1i32)`). -/
def mergeRow (r : Warehouse) (p : UpdateWarehouse) (now : Int) : Warehouse :=
  { r with
    warehouse_name := p.warehouse_name.getD r.warehouse_name
    warehouse_type := p.warehouse_type.or r.warehouse_type
    address := p.address.or r.address
    city := p.city.or r.city
    state := p.state.or r.state
    country := p.country.or r.country
    email := p.email.or r.email
    phone := p.phone.or r.phone
    updated_at := some now
    updated_by := some 1 }

/-- `WarehouseRepository::update` (`repositories/warehouses.rs` lines
201-258): rewrites every row matching
`warehouse_id = $1 AND is_active = true` and returns the updated row when
one matched (`RETURNING *` with `fetch_optional`). -/
def update (db : List Warehouse) (id : Int) (p : UpdateWarehouse)
    (now : Int) : List Warehouse × Option Warehouse :=
  (db.map (fun r =>
      if r.warehouse_id == id && r.is_active then mergeRow r p now else r),
    (db.find? (fun r => r.warehouse_id == id && r.is_active)).map
      (fun r => mergeRow r p now))

/-- `WarehouseRepository::delete` (`repositories/warehouses.rs` lines
261-272): `UPDATE ... SET is_active = false, updated_at = NOW(),
updated_by = $2 WHERE warehouse_id = $1 AND is_active = true`; the Boolean
is `rows_affected() > 0`. -/
def delete (db : List Warehouse) (id : Int) (now : Int) :
    List Warehouse × Bool :=
  (db.map (fun r =>
      if r.warehouse_id == id && r.is_active then
        { r with
          is_active := false
          updated_at := some now
          updated_by := some 1 }
      else r),
    db.any (fun r => r.warehouse_id == id && r.is_active))

/-- `WarehouseRepository::code_exists` (`repositories/warehouses.rs` lines
275-299): an `EXISTS` query over active rows with the code, excluding
`exclude_id` when given. -/
def code_exists (db : List Warehouse) (c : String) (exclude_id : Option Int) :
    Bool :=
  match exclude_id with
  | some i =>
    db.any (fun r => r.warehouse_code == c && !(r.warehouse_id == i)
      && r.is_active)
  | none => db.any (fun r => r.warehouse_code == c && r.is_active)

end WarehouseRepository

/-- Stand-in for the external `validator` crate's email format check used by
`#[validate(email)]`; external dependency, not repository code.  The claims
are only ever evaluated at payloads with `email = none`, where this
function is not consulted. -/
def emailFormatOk (s : String) : Bool :=
  s.data.any (fun c => c == '@')

/-- `payload.validate()` for `CreateWarehouse` (the `#[validate]`
attributes in `warehouse-models/src/lib.rs` lines 40-58). -/
def validCreate (p : CreateWarehouse) : Bool :=
  decide (1 ≤ p.warehouse_code.length) && decide (p.warehouse_code.length ≤ 50)
    && decide (1 ≤ p.warehouse_name.length)
    && decide (p.warehouse_name.length ≤ 255)
    && (match p.email with | some e => emailFormatOk e | none => true)
    && (match p.phone with | some s => decide (s.length ≤ 20) | none => true)

/-- `payload.validate()` for `UpdateWarehouse` (the `#[validate]`
attributes in `warehouse-models/src/lib.rs` lines 60-76). -/
def validUpdate (p : UpdateWarehouse) : Bool :=
  (match p.warehouse_name with
    | some n => decide (1 ≤ n.length) && decide (n.length ≤ 255)
    | none => true)
    && (match p.email with | some e => emailFormatOk e | none => true)
    && (match p.phone with | some s => decide (s.length ≤ 20) | none => true)

/-- The `create_warehouse` handler (`warehouse-api/src/main.rs` lines
159-176): validate, advisory `code_exists` pre-check (against the state
`dbCheck` seen at check time), then the repository insert (against the
possibly different state `dbInsert` seen at insert time; the two differ
exactly when a concurrent writer got in between).  Repository errors
propagate through `anyhow` into `AppError::Internal`. -/
def create_warehouse (dbCheck dbInsert : List Warehouse) (nid now : Int)
    (p : CreateWarehouse) : Except AppError (List Warehouse × Warehouse) :=
  if ¬ validCreate p then .error (.validation "invalid payload")
  else if WarehouseRepository.code_exists dbCheck p.warehouse_code none then
    .error (.alreadyExists "warehouse with this code")
  else
    match WarehouseRepository.create dbInsert nid now p with
    | .error e => .error (.internal e)
    | .ok dbw => .ok dbw

/-- The `update_warehouse` handler (`warehouse-api/src/main.rs` lines
188-203): validate, then repository update; `None` maps to `NotFound`.
No `code_exists` call occurs on this path. -/
def update_warehouse (db : List Warehouse) (id now : Int)
    (p : UpdateWarehouse) : Except AppError (List Warehouse × Warehouse) :=
  if ¬ validUpdate p then .error (.validation "invalid payload")
  else
    match WarehouseRepository.update db id p now with
    | (db2, some w) => .ok (db2, w)
    | (_, none) => .error (.notFound "warehouse")

/-- The `delete_warehouse` handler (`warehouse-api/src/main.rs` lines
205-217). -/
def delete_warehouse (db : List Warehouse) (id now : Int) :
    Except AppError (List Warehouse × String) :=
  match WarehouseRepository.delete db id now with
  | (db2, true) => .ok (db2, "Warehouse deleted successfully")
  | (_, false) => .error (.notFound "warehouse")

/-! ## Shared lemmas -/

/-- The Rust expression `(total + limit - 1) / limit` computes the ceiling
of `total / limit` whenever `total` is nonnegative and `limit` positive. -/
lemma tdiv_add_sub_one_eq_ceil (total limit : Int) (ht : 0 ≤ total)
    (hl : 0 < limit) :
    Int.tdiv (total + limit - 1) limit = ⌈(total : ℚ) / (limit : ℚ)⌉ := by
  have ha : (0 : Int) ≤ total + limit - 1 := by omega
  rw [Int.tdiv_eq_ediv ha hl.le]
  have hlq : (0 : ℚ) < (limit : ℚ) := by exact_mod_cast hl
  symm
  rw [Int.ceil_eq_iff]
  have h1 : (total + limit - 1) / limit * limit ≤ total + limit - 1 :=
    Int.ediv_mul_le _ (ne_of_gt hl)
  have h2 : total + limit - 1 < ((total + limit - 1) / limit + 1) * limit :=
    Int.lt_ediv_add_one_mul_self _ hl
  constructor
  · rw [lt_div_iff₀ hlq]
    have : ((total + limit - 1) / limit - 1) * limit < total := by
      have hexp : ((total + limit - 1) / limit - 1) * limit
          = (total + limit - 1) / limit * limit - limit := by ring
      omega
    calc ((((total + limit - 1) / limit : Int) : ℚ) - 1) * (limit : ℚ)
        = ((((total + limit - 1) / limit - 1) * limit : Int) : ℚ) := by
          push_cast; ring
      _ < ((total : Int) : ℚ) := by exact_mod_cast this
  · rw [div_le_iff₀ hlq]
    have : total ≤ (total + limit - 1) / limit * limit := by
      have hexp : ((total + limit - 1) / limit + 1) * limit
          = (total + limit - 1) / limit * limit + limit := by ring
      omega
    exact_mod_cast this

/-- Rows delivered by `list` come from the table and pass the
`is_active = true` filter. -/
lemma mem_list_data (db : List Warehouse) (q : PaginationQuery)
    (w : Warehouse) (hw : w ∈ (WarehouseRepository.list db q).data) :
    w ∈ db ∧ w.is_active = true := by
  unfold WarehouseRepository.list at hw
  simp only [PaginatedResponse.new] at hw
  have hsort : w ∈ (db.filter WarehouseRepository.activeRow).insertionSort
      WarehouseRepository.byName :=
    List.Sublist.subset
      ((List.take_sublist _ _).trans (List.drop_sublist _ _)) hw
  have hfilter : w ∈ db.filter WarehouseRepository.activeRow :=
    (List.perm_insertionSort WarehouseRepository.byName _).mem_iff.mp hsort
  have := List.mem_filter.mp hfilter
  exact ⟨this.1, by simpa [WarehouseRepository.activeRow] using this.2⟩

/-- After `delete db id now`, no row with that id matches the
`warehouse_id = $1 AND is_active = true` predicate any more. -/
lemma delete_no_active_id (db : List Warehouse) (id now : Int) :
    ∀ r ∈ (WarehouseRepository.delete db id now).1,
      (r.warehouse_id == id && r.is_active) = false := by
  intro r hr
  unfold WarehouseRepository.delete at hr
  simp only at hr
  obtain ⟨a, _, hfa⟩ := List.mem_map.mp hr
  by_cases hmatch : (a.warehouse_id == id && a.is_active) = true
  · rw [if_pos hmatch] at hfa
    subst hfa
    simp
  · rw [if_neg hmatch] at hfa
    subst hfa
    simpa using hmatch

/-! ## C4 -/

/-- C4: for `total ≥ 0`, `PaginationMeta::new` computes
`total_pages = ceil(total/limit)` when `limit > 0` and `0` when
`limit ≤ 0`, `has_next = (page < total_pages)`,
`has_prev = (page > 1)`; `calculate_total_pages` agrees with it. -/
theorem c4_pagination_meta (total page limit : Int) (ht : 0 ≤ total) :
    (0 < limit → (PaginationMeta.new total page limit).total_pages
      = ⌈(total : ℚ) / (limit : ℚ)⌉)
    ∧ (limit ≤ 0 → (PaginationMeta.new total page limit).total_pages = 0)
    ∧ (PaginationMeta.new total page limit).has_next
      = decide (page < (PaginationMeta.new total page limit).total_pages)
    ∧ (PaginationMeta.new total page limit).has_prev = decide (1 < page)
    ∧ calculate_total_pages total limit
      = (PaginationMeta.new total page limit).total_pages := by
  refine ⟨?_, ?_, rfl, rfl, ?_⟩
  · intro hl
    simp only [PaginationMeta.new, if_pos hl]
    exact tdiv_add_sub_one_eq_ceil total limit ht hl
  · intro hle
    simp only [PaginationMeta.new, if_neg (not_lt.mpr hle)]
  · by_cases hl : 0 < limit
    · simp only [calculate_total_pages, PaginationMeta.new,
        if_neg (not_le.mpr hl), if_pos hl]
    · simp only [calculate_total_pages, PaginationMeta.new,
        if_pos (not_lt.mp hl), if_neg hl]

/-- Witness for C4 at `total = 5`, `page = 2`, `limit = 2`. -/
theorem c4_pagination_meta_witness :
    (PaginationMeta.new 5 2 2).total_pages = ⌈(5 : ℚ) / (2 : ℚ)⌉ :=
  (c4_pagination_meta 5 2 2 (by decide)).1 (by decide)

/-! ## C5 -/

/-- C5: `validate_pagination` yields `page = max(page,1)` (default 1),
`limit` clamped into `[1,100]` (default 20), and `calculate_offset`
computes `(max(page,1) - 1) * max(limit,1)`. -/
theorem c5_pagination_normalization (q : PaginationQuery) :
    1 ≤ (validate_pagination q).1
    ∧ 1 ≤ (validate_pagination q).2 ∧ (validate_pagination q).2 ≤ 100
    ∧ (q.page = none → (validate_pagination q).1 = 1)
    ∧ (∀ v, q.page = some v → (validate_pagination q).1 = max v 1)
    ∧ (q.limit = none → (validate_pagination q).2 = 20)
    ∧ (∀ v, q.limit = some v →
        (validate_pagination q).2 = min (max v 1) 100)
    ∧ (∀ p l : Int, calculate_offset p l = (max p 1 - 1) * max l 1)
    ∧ calculate_offset (validate_pagination q).1 (validate_pagination q).2
      = ((validate_pagination q).1 - 1) * (validate_pagination q).2 := by
  refine ⟨le_max_right _ _,
    le_min (le_max_right _ _) (by norm_num), min_le_right _ _,
    ?_, ?_, ?_, ?_, fun _ _ => rfl, ?_⟩
  · intro hp
    simp [validate_pagination, hp]
  · intro v hp
    simp [validate_pagination, hp]
  · intro hl
    simp [validate_pagination, hl]
  · intro v hl
    simp [validate_pagination, hl]
  · have hp : 1 ≤ (validate_pagination q).1 := le_max_right _ _
    have hl : 1 ≤ (validate_pagination q).2 :=
      le_min (le_max_right _ _) (by norm_num)
    rw [calculate_offset, max_eq_left hp, max_eq_left hl]

/-- Witness for C5: `page` absent defaults to 1, `limit = 250` is clamped
to 100. -/
theorem c5_pagination_normalization_witness :
    (validate_pagination ⟨none, some 250, none, none, none⟩).1 = 1
    ∧ (validate_pagination ⟨none, some 250, none, none, none⟩).2
      = min (max 250 1) 100 :=
  ⟨(c5_pagination_normalization ⟨none, some 250, none, none, none⟩).2.2.2.1 rfl,
    (c5_pagination_normalization
      ⟨none, some 250, none, none, none⟩).2.2.2.2.2.2.1 250 rfl⟩

/-! ## Sample data used by concrete instances -/

/-- A stored active warehouse row. -/
def sampleRow : Warehouse :=
  { warehouse_id := 1
    warehouse_code := "WH-01"
    warehouse_name := "Alpha"
    warehouse_type := some "DC"
    address := none
    city := some "Jakarta"
    state := none
    postal_code := some "111"
    country := some "Indonesia"
    phone := none
    email := none
    manager_user_id := some 7
    timezone := some "Asia/Jakarta"
    is_active := true
    created_at := some 0
    updated_at := some 0
    created_by := some 1
    updated_by := none }

/-- A patch that only sets `postal_code`. -/
def patchPostal : UpdateWarehouse :=
  { warehouse_name := none
    warehouse_type := none
    address := none
    city := none
    state := none
    postal_code := some "999"
    country := none
    email := none
    phone := none
    manager_user_id := none
    timezone := none }

/-! ## C1 -/

/-- C1 counterexample: the patch carries `postal_code = "999"`, yet the
updated row keeps the stored `postal_code = "111"` — the `UPDATE` statement
never writes `postal_code` (nor `manager_user_id` nor `timezone`), so a
present field does not overwrite the stored value. -/
theorem c1_counterexample :
    patchPostal.postal_code = some "999"
    ∧ sampleRow.postal_code = some "111"
    ∧ ((WarehouseRepository.update [sampleRow] 1 patchPostal 5).2.map
        Warehouse.postal_code) = some (some "111")
    ∧ ((WarehouseRepository.update [sampleRow] 1 patchPostal 5).2.map
        Warehouse.postal_code) ≠ some (some "999") := by
  refine ⟨rfl, rfl, by decide, by decide⟩

/-- C1 amended: the merge is field-by-field via `COALESCE` for the eight
columns the `UPDATE` writes (`warehouse_name`, `warehouse_type`, `address`,
`city`, `state`, `country`, `email`, `phone`): a present field overwrites,
an absent field leaves the stored value; `postal_code`, `manager_user_id`
and `timezone` are never modified, and a field can never be cleared to
null. -/
theorem c1_partial_update_merge (r : Warehouse) (p : UpdateWarehouse)
    (now : Int) :
    ((∀ v, p.warehouse_name = some v
        → (WarehouseRepository.mergeRow r p now).warehouse_name = v)
      ∧ (p.warehouse_name = none
        → (WarehouseRepository.mergeRow r p now).warehouse_name
          = r.warehouse_name))
    ∧ ((∀ v, p.warehouse_type = some v
        → (WarehouseRepository.mergeRow r p now).warehouse_type = some v)
      ∧ (p.warehouse_type = none
        → (WarehouseRepository.mergeRow r p now).warehouse_type
          = r.warehouse_type))
    ∧ ((∀ v, p.address = some v
        → (WarehouseRepository.mergeRow r p now).address = some v)
      ∧ (p.address = none
        → (WarehouseRepository.mergeRow r p now).address = r.address))
    ∧ ((∀ v, p.city = some v
        → (WarehouseRepository.mergeRow r p now).city = some v)
      ∧ (p.city = none
        → (WarehouseRepository.mergeRow r p now).city = r.city))
    ∧ ((∀ v, p.state = some v
        → (WarehouseRepository.mergeRow r p now).state = some v)
      ∧ (p.state = none
        → (WarehouseRepository.mergeRow r p now).state = r.state))
    ∧ ((∀ v, p.country = some v
        → (WarehouseRepository.mergeRow r p now).country = some v)
      ∧ (p.country = none
        → (WarehouseRepository.mergeRow r p now).country = r.country))
    ∧ ((∀ v, p.email = some v
        → (WarehouseRepository.mergeRow r p now).email = some v)
      ∧ (p.email = none
        → (WarehouseRepository.mergeRow r p now).email = r.email))
    ∧ ((∀ v, p.phone = some v
        → (WarehouseRepository.mergeRow r p now).phone = some v)
      ∧ (p.phone = none
        → (WarehouseRepository.mergeRow r p now).phone = r.phone))
    ∧ (WarehouseRepository.mergeRow r p now).postal_code = r.postal_code
    ∧ (WarehouseRepository.mergeRow r p now).manager_user_id
      = r.manager_user_id
    ∧ (WarehouseRepository.mergeRow r p now).timezone = r.timezone
    ∧ (∀ db id, (WarehouseRepository.update db id p now).2
      = (WarehouseRepository.get_by_id db id).map
          (fun a => WarehouseRepository.mergeRow a p now)) := by
  refine ⟨⟨?_, ?_⟩, ⟨?_, ?_⟩, ⟨?_, ?_⟩, ⟨?_, ?_⟩, ⟨?_, ?_⟩, ⟨?_, ?_⟩,
    ⟨?_, ?_⟩, ⟨?_, ?_⟩, rfl, rfl, rfl, fun _ _ => rfl⟩
  all_goals first
    | (intro v h; simp [WarehouseRepository.mergeRow, h])
    | (intro h; simp [WarehouseRepository.mergeRow, h])

/-- Witness for C1 amended at a patch that only sets `city`. -/
theorem c1_partial_update_merge_witness :
    (WarehouseRepository.mergeRow sampleRow
      { warehouse_name := none, warehouse_type := none, address := none,
        city := some "Bandung", state := none, postal_code := none,
        country := none, email := none, phone := none,
        manager_user_id := none, timezone := none } 5).city = some "Bandung"
    ∧ (WarehouseRepository.mergeRow sampleRow
      { warehouse_name := none, warehouse_type := none, address := none,
        city := some "Bandung", state := none, postal_code := none,
        country := none, email := none, phone := none,
        manager_user_id := none, timezone := none } 5).postal_code
      = sampleRow.postal_code := by
  have h := c1_partial_update_merge sampleRow
    { warehouse_name := none, warehouse_type := none, address := none,
      city := some "Bandung", state := none, postal_code := none,
      country := none, email := none, phone := none,
      manager_user_id := none, timezone := none } 5
  exact ⟨h.2.2.2.1.1 "Bandung" rfl, h.2.2.2.2.2.2.2.2.1⟩

/-! ## C9 -/

/-- C9: every successful update returns a row whose `updated_at` is the
current instant and whose `updated_by` is set, while `warehouse_id`,
`warehouse_code`, `is_active`, `created_at` and `created_by` are those of
the stored row. -/
theorem c9_update_audit_frame (db : List Warehouse) (id : Int)
    (p : UpdateWarehouse) (now : Int) (db2 : List Warehouse) (w : Warehouse)
    (h : WarehouseRepository.update db id p now = (db2, some w)) :
    w.updated_at = some now ∧ w.updated_by = some 1
    ∧ ∃ r, WarehouseRepository.get_by_id db id = some r
        ∧ w.warehouse_id = r.warehouse_id
        ∧ w.warehouse_code = r.warehouse_code
        ∧ w.is_active = r.is_active
        ∧ w.created_at = r.created_at
        ∧ w.created_by = r.created_by := by
  unfold WarehouseRepository.update at h
  have h2 := congrArg Prod.snd h
  simp only at h2
  rw [Option.map_eq_some'] at h2
  obtain ⟨r, hr, hw⟩ := h2
  subst hw
  refine ⟨rfl, rfl, r, ?_, rfl, rfl, rfl, rfl, rfl⟩
  simpa [WarehouseRepository.get_by_id] using hr

/-- Witness for C9 on a concrete one-row table. -/
theorem c9_update_audit_frame_witness :
    (WarehouseRepository.mergeRow sampleRow patchPostal 5).updated_at = some 5
    ∧ (WarehouseRepository.mergeRow sampleRow patchPostal 5).updated_by
      = some 1 := by
  have h := c9_update_audit_frame [sampleRow] 1 patchPostal 5
    (WarehouseRepository.update [sampleRow] 1 patchPostal 5).1
    (WarehouseRepository.mergeRow sampleRow patchPostal 5) (by decide)
  exact ⟨h.1, h.2.1⟩

/-! ## C10 -/

/-- C10: a successful create stores `country = "Indonesia"` and
`timezone = "Asia/Jakarta"` when those payload fields are absent, always
stores `created_by = 1`, and the returned row is the one appended to the
table. -/
theorem c10_create_defaults (db : List Warehouse) (nid now : Int)
    (p : CreateWarehouse) (db2 : List Warehouse) (w : Warehouse)
    (h : WarehouseRepository.create db nid now p = .ok (db2, w)) :
    (p.country = none → w.country = some "Indonesia")
    ∧ (p.timezone = none → w.timezone = some "Asia/Jakarta")
    ∧ w.created_by = some 1
    ∧ db2 = db ++ [w] := by
  unfold WarehouseRepository.create at h
  split at h
  · exact absurd h (by simp)
  · simp only [Except.ok.injEq, Prod.mk.injEq] at h
    obtain ⟨hdb, hw⟩ := h
    subst hw
    refine ⟨?_, ?_, rfl, hdb.symm⟩
    · intro hc
      simp [WarehouseRepository.newRow, hc]
    · intro hc
      simp [WarehouseRepository.newRow, hc]

/-- Witness for C10 at a payload with absent `country` and `timezone`. -/
theorem c10_create_defaults_witness :
    (WarehouseRepository.newRow 3 4
      { warehouse_code := "WH-09", warehouse_name := "North",
        warehouse_type := none, address := none, city := none, state := none,
        postal_code := none, country := none, email := none, phone := none,
        manager_user_id := none, timezone := none }).country
      = some "Indonesia"
    ∧ (WarehouseRepository.newRow 3 4
      { warehouse_code := "WH-09", warehouse_name := "North",
        warehouse_type := none, address := none, city := none, state := none,
        postal_code := none, country := none, email := none, phone := none,
        manager_user_id := none, timezone := none }).created_by = some 1 := by
  have h := c10_create_defaults [] 3 4
    { warehouse_code := "WH-09", warehouse_name := "North",
      warehouse_type := none, address := none, city := none, state := none,
      postal_code := none, country := none, email := none, phone := none,
      manager_user_id := none, timezone := none }
    ([] ++ [WarehouseRepository.newRow 3 4
      { warehouse_code := "WH-09", warehouse_name := "North",
        warehouse_type := none, address := none, city := none, state := none,
        postal_code := none, country := none, email := none, phone := none,
        manager_user_id := none, timezone := none }])
    (WarehouseRepository.newRow 3 4
      { warehouse_code := "WH-09", warehouse_name := "North",
        warehouse_type := none, address := none, city := none, state := none,
        postal_code := none, country := none, email := none, phone := none,
        manager_user_id := none, timezone := none }) rfl
  exact ⟨h.1 rfl, h.2.2.1⟩

/-! ## C3 -/

/-- An active row already holding code `WH-01`, inserted by a concurrent
winner between the loser's pre-check and its insert. -/
def raceRow : Warehouse :=
  { sampleRow with warehouse_id := 9, warehouse_code := "WH-01" }

/-- The race loser's creation payload, also using code `WH-01`. -/
def racePayload : CreateWarehouse :=
  { warehouse_code := "WH-01"
    warehouse_name := "Central"
    warehouse_type := none
    address := none
    city := none
    state := none
    postal_code := none
    country := none
    email := none
    phone := none
    manager_user_id := none
    timezone := none }

/-- C3 counterexample: the pre-check (against the empty state seen at check
time) passes, the insert (against the state already holding `WH-01`) hits
the uniqueness constraint, and the handler resolves to
`AppError::Internal` (code `INTERNAL_ERROR`), not to `AlreadyExists`. -/
theorem c3_counterexample :
    WarehouseRepository.code_exists [] "WH-01" none = false
    ∧ create_warehouse [] [raceRow] 2 9 racePayload
      = .error (.internal .uniqueViolation)
    ∧ create_warehouse [] [raceRow] 2 9 racePayload
      ≠ .error (.alreadyExists "warehouse with this code")
    ∧ (AppError.internal .uniqueViolation).code = "INTERNAL_ERROR" := by
  refine ⟨rfl, by decide, by decide, rfl⟩

/-- C3 amended: when the pre-check passed but the insert hits the storage
uniqueness constraint, the handler resolves to `AppError::Internal`
(rendered as `INTERNAL_ERROR`), because the repository's `anyhow` error is
converted by `#[from] anyhow::Error` into `AppError::Internal`; no code
path re-maps the storage uniqueness violation to `AlreadyExists`. -/
theorem c3_create_race (dbCheck dbInsert : List Warehouse) (nid now : Int)
    (p : CreateWarehouse) (hv : validCreate p = true)
    (hpre : WarehouseRepository.code_exists dbCheck p.warehouse_code none
      = false)
    (hrace : ∃ r ∈ dbInsert, r.is_active = true
      ∧ r.warehouse_code = p.warehouse_code) :
    create_warehouse dbCheck dbInsert nid now p
      = .error (.internal .uniqueViolation)
    ∧ (AppError.internal .uniqueViolation).code = "INTERNAL_ERROR" := by
  obtain ⟨r, hmem, hact, hcode⟩ := hrace
  have hany : dbInsert.any
      (fun r => r.is_active && r.warehouse_code == p.warehouse_code)
      = true :=
    List.any_eq_true.mpr ⟨r, hmem, by simp [hact, hcode]⟩
  refine ⟨?_, rfl⟩
  simp [create_warehouse, WarehouseRepository.create, hv, hpre, hany]

/-- Witness for C3 amended at the concrete race states. -/
theorem c3_create_race_witness :
    create_warehouse [] [raceRow] 2 9 racePayload
      = .error (.internal .uniqueViolation) :=
  (c3_create_race [] [raceRow] 2 9 racePayload (by decide) rfl
    ⟨raceRow, by decide, by decide, by decide⟩).1

/-! ## C8 -/

/-- Helper: a successful repository update returns exactly the stored
active row passed through `mergeRow`. -/
lemma update_returns_merged (db : List Warehouse) (id : Int)
    (p : UpdateWarehouse) (now : Int) (w : Warehouse)
    (h : (WarehouseRepository.update db id p now).2 = some w) :
    ∃ r, WarehouseRepository.get_by_id db id = some r
      ∧ w = WarehouseRepository.mergeRow r p now := by
  unfold WarehouseRepository.update at h
  simp only at h
  rw [Option.map_eq_some'] at h
  obtain ⟨r, hr, hw⟩ := h
  exact ⟨r, by simpa [WarehouseRepository.get_by_id] using hr, hw.symm⟩

/-- A second stored active row. -/
def rowTwo : Warehouse :=
  { sampleRow with
    warehouse_id := 2
    warehouse_code := "WH-02"
    warehouse_name := "Beta" }

/-- A patch with every settable field present (no code field exists to
set; `email` is left absent because its format check belongs to the
external validator crate). -/
def patchFull : UpdateWarehouse :=
  { warehouse_name := some "Renamed"
    warehouse_type := some "HUB"
    address := some "Jl. Sudirman 1"
    city := some "Surabaya"
    state := some "East Java"
    postal_code := some "60111"
    country := some "Singapore"
    email := none
    phone := some "0800"
    manager_user_id := some 12
    timezone := some "Asia/Singapore" }

/-- C8 counterexample: a different active record (id 2) holds `WH-02` —
`code_exists "WH-02" (exclude 1)` is true — yet no update of record 1 can
fail with `AlreadyExists`: the payload has no code field, so even the patch
with every available field present succeeds and leaves the code `WH-01`. -/
theorem c8_counterexample :
    WarehouseRepository.code_exists [sampleRow, rowTwo] "WH-02" (some 1)
      = true
    ∧ (update_warehouse [sampleRow, rowTwo] 1 5 patchFull).isOk = true
    ∧ ((update_warehouse [sampleRow, rowTwo] 1 5 patchFull).toOption.map
        (fun x => x.2.warehouse_code)) = some "WH-01" := by
  refine ⟨by decide, by decide, by decide⟩

/-- C8 amended: `code_exists(code, exclude_id)` is true iff an active
record other than `exclude_id` holds the code (`none` meaning any active
record), but the update path performs no such check: `UpdateWarehouse` has
no code field, a successful update returns the stored row's unchanged
code, and `update_warehouse` never yields `AlreadyExists`. -/
theorem c8_update_code_uniqueness (db : List Warehouse) (c : String)
    (i : Int) (id now : Int) (p : UpdateWarehouse) :
    (WarehouseRepository.code_exists db c (some i) = true
      ↔ ∃ r ∈ db, r.is_active = true ∧ r.warehouse_code = c
        ∧ r.warehouse_id ≠ i)
    ∧ (WarehouseRepository.code_exists db c none = true
      ↔ ∃ r ∈ db, r.is_active = true ∧ r.warehouse_code = c)
    ∧ (∀ s, update_warehouse db id now p ≠ .error (.alreadyExists s))
    ∧ (∀ db2 w, update_warehouse db id now p = .ok (db2, w)
      → ∃ r, WarehouseRepository.get_by_id db id = some r
        ∧ w.warehouse_code = r.warehouse_code) := by
  refine ⟨?_, ?_, ?_, ?_⟩
  · simp only [WarehouseRepository.code_exists, List.any_eq_true,
      Bool.and_eq_true, beq_iff_eq, Bool.not_eq_true', beq_eq_false_iff_ne]
    constructor
    · rintro ⟨r, hmem, ⟨hc, hi⟩, ha⟩
      exact ⟨r, hmem, ha, hc, hi⟩
    · rintro ⟨r, hmem, ha, hc, hi⟩
      exact ⟨r, hmem, ⟨hc, hi⟩, ha⟩
  · simp only [WarehouseRepository.code_exists, List.any_eq_true,
      Bool.and_eq_true, beq_iff_eq]
    constructor
    · rintro ⟨r, hmem, hc, ha⟩
      exact ⟨r, hmem, ha, hc⟩
    · rintro ⟨r, hmem, ha, hc⟩
      exact ⟨r, hmem, hc, ha⟩
  · intro s heq
    unfold update_warehouse at heq
    split at heq
    · simp at heq
    · rcases hupd : WarehouseRepository.update db id p now with ⟨dbm, ow⟩
      rw [hupd] at heq
      cases ow with
      | none => simp at heq
      | some wm => simp at heq
  · intro db2 w heq
    unfold update_warehouse at heq
    split at heq
    · simp at heq
    · rcases hupd : WarehouseRepository.update db id p now with ⟨dbm, ow⟩
      rw [hupd] at heq
      cases ow with
      | none => simp at heq
      | some wm =>
        simp only [Except.ok.injEq, Prod.mk.injEq] at heq
        obtain ⟨hdb, hww⟩ := heq
        subst hww
        obtain ⟨r, hr, hmerge⟩ := update_returns_merged db id p now wm
          (by rw [hupd])
        exact ⟨r, hr, by rw [hmerge]; rfl⟩

/-- Witness for C8 amended at the two-row table. -/
theorem c8_update_code_uniqueness_witness :
    WarehouseRepository.code_exists [sampleRow, rowTwo] "WH-02" (some 1)
      = true := by
  have h := c8_update_code_uniqueness [sampleRow, rowTwo] "WH-02" 1 1 5
    patchFull
  exact h.1.mpr ⟨rowTwo, by decide, by decide, by decide, by decide⟩

/-! ## C7 -/

/-- C7: `delete` reports `true` exactly when an active row with the id
existed, removes no row physically, leaves every row with that id
inactive, and a second delete of the same id reports `false` while leaving
the state unchanged. -/
theorem c7_soft_delete (db : List Warehouse) (id now now2 : Int) :
    ((WarehouseRepository.delete db id now).2 = true
      ↔ ∃ r ∈ db, r.is_active = true ∧ r.warehouse_id = id)
    ∧ ((WarehouseRepository.delete db id now).1).length = db.length
    ∧ (∀ r ∈ (WarehouseRepository.delete db id now).1,
        r.warehouse_id = id → r.is_active = false)
    ∧ WarehouseRepository.delete
        (WarehouseRepository.delete db id now).1 id now2
      = ((WarehouseRepository.delete db id now).1, false) := by
  refine ⟨?_, ?_, ?_, ?_⟩
  · simp only [WarehouseRepository.delete, List.any_eq_true,
      Bool.and_eq_true, beq_iff_eq]
    constructor
    · rintro ⟨r, hmem, hid, hact⟩
      exact ⟨r, hmem, hact, hid⟩
    · rintro ⟨r, hmem, hact, hid⟩
      exact ⟨r, hmem, hid, hact⟩
  · simp [WarehouseRepository.delete]
  · intro r hr hid
    have hfalse := delete_no_active_id db id now r hr
    simpa [hid] using hfalse
  · set l := (WarehouseRepository.delete db id now).1 with hl
    have hno : ∀ r ∈ l, (r.warehouse_id == id && r.is_active) = false :=
      delete_no_active_id db id now
    have hmap : l.map (fun r =>
        if r.warehouse_id == id && r.is_active then
          { r with is_active := false, updated_at := some now2, updated_by := some 1 }
        else r) = l := by
      conv_rhs => rw [← List.map_id l]
      exact List.map_congr_left (fun a ha => by simp [hno a ha])
    have hany : l.any (fun r => r.warehouse_id == id && r.is_active)
        = false :=
      List.any_eq_false.mpr (fun r hr => by simp [hno r hr])
    show (l.map (fun r =>
        if r.warehouse_id == id && r.is_active then
          { r with is_active := false, updated_at := some now2, updated_by := some 1 }
        else r),
      l.any (fun r => r.warehouse_id == id && r.is_active)) = (l, false)
    rw [hmap, hany]

/-- Witness for C7 on a one-row table: the first delete affects a row, the
second does not and leaves the state unchanged. -/
theorem c7_soft_delete_witness :
    (WarehouseRepository.delete [sampleRow] 1 5).2 = true
    ∧ WarehouseRepository.delete
        (WarehouseRepository.delete [sampleRow] 1 5).1 1 6
      = ((WarehouseRepository.delete [sampleRow] 1 5).1, false) := by
  have h := c7_soft_delete [sampleRow] 1 5 6
  exact ⟨h.1.mpr ⟨sampleRow, by decide, rfl, rfl⟩, h.2.2.2⟩

/-! ## C2 -/

/-- A query carrying a search term that matches nothing. -/
def searchQuery : PaginationQuery :=
  { page := some 1
    limit := some 20
    search := some "zzz"
    sort_by := none
    sort_order := none }

/-- C2 counterexample: with `search = "zzz"`, the spec-mandated filter
matches no text field of the stored row, yet `list` returns the row — the
query's `search` is not applied. -/
theorem c2_counterexample :
    searchQuery.search = some "zzz"
    ∧ (WarehouseRepository.list [sampleRow] searchQuery).data = [sampleRow]
    ∧ matchesSearch "zzz" sampleRow = false := by
  refine ⟨rfl, by decide, by decide⟩

/-- C2 amended: `list` filters to active records and returns them sorted by
`warehouse_name` ascending, but its result is entirely independent of
`search`, `sort_by` and `sort_order`; no input value causes an error (the
function is total). -/
theorem c2_list_ignores_search_sort (db : List Warehouse)
    (page limit : Option Int) (s1 sb1 so1 s2 sb2 so2 : Option String) :
    WarehouseRepository.list db
        { page := page, limit := limit, search := s1, sort_by := sb1,
          sort_order := so1 }
      = WarehouseRepository.list db
        { page := page, limit := limit, search := s2, sort_by := sb2,
          sort_order := so2 }
    ∧ (∀ w ∈ (WarehouseRepository.list db
        { page := page, limit := limit, search := s1, sort_by := sb1,
          sort_order := so1 }).data, w.is_active = true)
    ∧ List.Sorted WarehouseRepository.byName
        (WarehouseRepository.list db
          { page := page, limit := limit, search := s1, sort_by := sb1,
            sort_order := so1 }).data := by
  refine ⟨rfl, fun w hw => (mem_list_data _ _ w hw).2, ?_⟩
  simp only [WarehouseRepository.list, PaginatedResponse.new]
  exact List.Pairwise.sublist
    ((List.take_sublist _ _).trans (List.drop_sublist _ _))
    (List.sorted_insertionSort _ _)

/-- Witness for C2 amended: changing `search`, `sort_by` and `sort_order`
does not change the result, and the returned row is active. -/
theorem c2_list_ignores_search_sort_witness :
    WarehouseRepository.list [sampleRow]
        { page := some 1, limit := some 20, search := some "zzz",
          sort_by := none, sort_order := none }
      = WarehouseRepository.list [sampleRow]
        { page := some 1, limit := some 20, search := none,
          sort_by := some "code", sort_order := some "DESC" }
    ∧ sampleRow.is_active = true := by
  have h := c2_list_ignores_search_sort [sampleRow] (some 1) (some 20)
    (some "zzz") none none none (some "code") (some "DESC")
  exact ⟨h.1, h.2.1 sampleRow (by decide)⟩

/-! ## C6 -/

/-- Helper: an active row of the post-delete table was already a row of
the original table. -/
lemma mem_delete_fst (db : List Warehouse) (id now : Int) (r : Warehouse)
    (hr : r ∈ (WarehouseRepository.delete db id now).1)
    (hact : r.is_active = true) : r ∈ db := by
  unfold WarehouseRepository.delete at hr
  simp only at hr
  obtain ⟨a, ha, hfa⟩ := List.mem_map.mp hr
  by_cases hmatch : (a.warehouse_id == id && a.is_active) = true
  · rw [if_pos hmatch] at hfa
    subst hfa
    simp at hact
  · rw [if_neg hmatch] at hfa
    subst hfa
    exact ha

/-- C6: every read (`get_by_id`, `get_by_code`, `list`, `code_exists`)
only observes active rows; after a soft delete the record is invisible to
all of them, and when the deleted record was the only active holder of its
code, `code_exists` no longer reports a collision and a new create with
that code succeeds. -/
theorem c6_soft_delete_invisibility (db : List Warehouse) (id : Int)
    (c : String) (ex : Option Int) (q : PaginationQuery) (now nid : Int)
    (p : CreateWarehouse) :
    (∀ w, WarehouseRepository.get_by_id db id = some w
      → w.is_active = true)
    ∧ (∀ w, WarehouseRepository.get_by_code db c = some w
      → w.is_active = true)
    ∧ (∀ w ∈ (WarehouseRepository.list db q).data, w.is_active = true)
    ∧ (WarehouseRepository.code_exists db c ex = true
      → ∃ r ∈ db, r.is_active = true ∧ r.warehouse_code = c)
    ∧ WarehouseRepository.get_by_id
        (WarehouseRepository.delete db id now).1 id = none
    ∧ (∀ w ∈ (WarehouseRepository.list
        (WarehouseRepository.delete db id now).1 q).data,
        w.warehouse_id ≠ id)
    ∧ ((∀ r ∈ db, r.is_active = true → r.warehouse_code = c
          → r.warehouse_id = id)
      → p.warehouse_code = c
      → WarehouseRepository.code_exists
            (WarehouseRepository.delete db id now).1 c none = false
        ∧ WarehouseRepository.create
            (WarehouseRepository.delete db id now).1 nid now p
          = .ok ((WarehouseRepository.delete db id now).1
              ++ [WarehouseRepository.newRow nid now p],
            WarehouseRepository.newRow nid now p)) := by
  refine ⟨?_, ?_, fun w hw => (mem_list_data _ _ w hw).2, ?_, ?_, ?_, ?_⟩
  · intro w h
    unfold WarehouseRepository.get_by_id at h
    have hp := List.find?_some h
    simp only [Bool.and_eq_true] at hp
    exact hp.2
  · intro w h
    unfold WarehouseRepository.get_by_code at h
    have hp := List.find?_some h
    simp only [Bool.and_eq_true] at hp
    exact hp.2
  · intro h
    cases ex with
    | some i =>
      simp only [WarehouseRepository.code_exists, List.any_eq_true,
        Bool.and_eq_true, beq_iff_eq] at h
      obtain ⟨r, hmem, ⟨hc, _⟩, hact⟩ := h
      exact ⟨r, hmem, hact, hc⟩
    | none =>
      simp only [WarehouseRepository.code_exists, List.any_eq_true,
        Bool.and_eq_true, beq_iff_eq] at h
      obtain ⟨r, hmem, hc, hact⟩ := h
      exact ⟨r, hmem, hact, hc⟩
  · exact List.find?_eq_none.mpr
      (fun r hr => by simp [delete_no_active_id db id now r hr])
  · intro w hw hid
    obtain ⟨hmem, hact⟩ := mem_list_data _ _ w hw
    have hfalse := delete_no_active_id db id now w hmem
    simp [hid, hact] at hfalse
  · intro honly hpc
    have hnone : ∀ r ∈ (WarehouseRepository.delete db id now).1,
        ¬(r.warehouse_code == c && r.is_active) = true := by
      intro r hr hcontra
      simp only [Bool.and_eq_true, beq_iff_eq] at hcontra
      obtain ⟨hc, hact⟩ := hcontra
      have hmem : r ∈ db := mem_delete_fst db id now r hr hact
      have hne : r.warehouse_id ≠ id := by
        have hfalse := delete_no_active_id db id now r hr
        simp only [Bool.and_eq_true, not_and] at hfalse
        intro heq
        rw [heq, hact] at hfalse
        simp at hfalse
      exact hne (honly r hmem hact hc)
    have hany : ((WarehouseRepository.delete db id now).1).any
        (fun r => r.is_active && r.warehouse_code == p.warehouse_code)
        = false := by
      refine List.any_eq_false.mpr (fun r hr hcon => ?_)
      simp only [Bool.and_eq_true, beq_iff_eq, hpc] at hcon
      exact hnone r hr (by simp [hcon.1, hcon.2])
    refine ⟨List.any_eq_false.mpr hnone, ?_⟩
    unfold WarehouseRepository.create
    rw [if_neg (by rw [hany]; simp)]

/-- Witness for C6: after deleting the only active holder of `WH-01`, the
record is invisible to `get_by_id` and the code is free again. -/
theorem c6_soft_delete_invisibility_witness :
    WarehouseRepository.get_by_id
      (WarehouseRepository.delete [sampleRow] 1 5).1 1 = none
    ∧ WarehouseRepository.code_exists
        (WarehouseRepository.delete [sampleRow] 1 5).1 "WH-01" none
      = false := by
  have h := c6_soft_delete_invisibility [sampleRow] 1 "WH-01" none
    searchQuery 5 2 racePayload
  exact ⟨h.2.2.2.2.1,
    (h.2.2.2.2.2.2 (fun r hr hact hc => by
      simp only [List.mem_singleton] at hr
      subst hr
      rfl) rfl).1⟩
